import Mathlib

/-!
# Verification of the relation join-column resolution core

A shallow embedding of `src/metadata-builder/RelationJoinColumnBuilder.ts`:
the resolver that turns declarative join-column specifications of
many-to-one / one-to-one owner relations into concrete join columns,
foreign keys and supporting unique constraints.

Modelling conventions:
* TypeScript optional string fields (`name?: string`) become `Option String`;
  the JavaScript truthiness test `!!x` becomes `truthy` below (both
  `undefined` and the empty string are falsy).
* `ColumnMetadata.length` is a plain `String` with `""` for "no explicit
  length", exactly as in the source class, where `length: string = ""`.
* Object references are modelled by values.  The mutable column registry of
  the owning entity (`EntityMetadata.ownColumns`, and the embedded column
  scope when the relation lives inside an embedded type) is threaded
  explicitly as a `ScopeState`; in-place mutation of a found column becomes
  replacement of the first matching entry, and `OrmUtils.cloneObject`
  (a shallow copy yielding an independent object) becomes the value itself
  with the registry left untouched.
* A `referencedColumn` link stores the flat attribute record
  (`ColumnData`) of the target column it points at, and the
  `relationMetadata` back-reference stores the relation's property name,
  which keeps the column type non-recursive.
* Thrown `TypeORMError`s become `Except String`.
-/

set_option autoImplicit false

/-- Raw join-column specification, `JoinColumnMetadataArgs`: optional
explicit physical name, optional referenced property name, optional
foreign-key constraint name. -/
structure JoinColumnMetadataArgs where
  name : Option String := none
  referencedColumnName : Option String := none
  foreignKeyConstraintName : Option String := none
  deriving DecidableEq, Repr

/-- JavaScript truthiness `!!x` of an optional string: `undefined` and the
empty string are falsy. -/
def truthy : Option String → Bool
  | none => false
  | some s => !(s == "")

/-- JavaScript truthiness of a plain string field (such as
`ColumnMetadata.length`, which defaults to `""`). -/
def truthyStr (s : String) : Bool := !(s == "")

/-- Flat attribute record of one column, the fields of `ColumnMetadata`
that this core reads and copies. -/
structure ColumnData where
  propertyName : String := ""
  databaseName : String := ""
  databaseNameWithoutPrefixes : String := ""
  mode : String := "regular"
  type : String := ""
  length : String := ""
  width : Option Nat := none
  charset : Option String := none
  collation : Option String := none
  precision : Option Nat := none
  scale : Option Nat := none
  zerofill : Bool := false
  unsigned : Bool := false
  comment : Option String := none
  enum : Option (List String) := none
  enumName : Option String := none
  isPrimary : Bool := false
  isNullable : Bool := false
  generationStrategy : Option String := none
  deriving DecidableEq, Repr

/-- A column descriptor: its attributes, an optional referenced-column link
(the flat record of the target column it mirrors) and the back-reference to
the relation that claimed it (modelled by the relation's property name). -/
structure ColumnMetadata extends ColumnData where
  referencedColumn : Option ColumnData := none
  relationPropertyName : Option String := none
  deriving DecidableEq, Repr

/-- An entity descriptor: name, table name, stable target identity and its
own column registry. -/
structure EntityMetadata where
  name : String
  tableName : String
  target : String
  ownColumns : List ColumnMetadata
  deriving DecidableEq, Repr

/-- Modelled from the spec: the Entity Descriptor's primary-key subset is
the own columns flagged primary, in definition order (the
`EntityMetadata.primaryColumns` collection is outside the source core). -/
def EntityMetadata.primaryColumns (e : EntityMetadata) : List ColumnMetadata :=
  e.ownColumns.filter (fun c => c.isPrimary)

/-- The embedded column scope a relation may live inside (only its column
list is read by this core). -/
structure EmbeddedMetadata where
  columns : List ColumnMetadata
  deriving DecidableEq, Repr

/-- A declared many-to-one / one-to-one owner relation. -/
structure RelationMetadata where
  propertyName : String
  isManyToOne : Bool
  isOneToOne : Bool
  isPrimary : Bool
  isNullable : Bool
  createForeignKeyConstraints : Bool
  onDelete : Option String := none
  onUpdate : Option String := none
  deferrable : Option String := none
  entityMetadata : EntityMetadata
  inverseEntityMetadata : EntityMetadata
  embeddedMetadata : Option EmbeddedMetadata := none
  deriving DecidableEq, Repr

/-- Driver options (only the dialect tag is read). -/
structure DriverOptions where
  type : String
  deriving DecidableEq, Repr

/-- The driver capability facade consumed by this core:
`DriverUtils.isMySQLFamily`, `driver.options.type` and
`driver.normalizeType`. -/
structure Driver where
  isMySQLFamily : Bool
  options : DriverOptions
  normalizeType : ColumnMetadata → String

/-- The naming-strategy interface consumed by this core (pure functions). -/
structure NamingStrategyInterface where
  joinColumnName : String → String → String
  relationConstraintName : String → List String → String

/-- The connection: naming strategy plus driver facade. -/
structure DataSource where
  namingStrategy : NamingStrategyInterface
  driver : Driver

namespace RelationJoinColumnBuilder

/-- One per-spec lookup of the referenced column among the target entity's
own columns (`ownColumns.find(column => column.propertyName ===
joinColumn.referencedColumnName)`); a failed lookup is the thrown
`TypeORMError`. -/
def lookupReferencedColumn (target : EntityMetadata)
    (joinColumn : JoinColumnMetadataArgs) : Except String ColumnMetadata :=
  match target.ownColumns.find?
      (fun column => some column.propertyName == joinColumn.referencedColumnName) with
  | some referencedColumn => .ok referencedColumn
  | none =>
      .error ("Referenced column " ++ (joinColumn.referencedColumnName.getD "undefined")
        ++ " was not found in entity " ++ target.name)

/-- The `joinColumns.map(...)` loop of `collectReferencedColumns` with its
throw-on-missing semantics: the first failing lookup aborts the whole
resolution. -/
def lookupAllReferencedColumns (target : EntityMetadata) :
    List JoinColumnMetadataArgs → Except String (List ColumnMetadata)
  | [] => .ok []
  | joinColumn :: rest =>
      match lookupReferencedColumn target joinColumn with
      | .error e => .error e
      | .ok c => (lookupAllReferencedColumns target rest).map (fun cs => c :: cs)

/-- `collectReferencedColumns` of the source: default to the target's
primary columns when no spec carries a truthy referenced column name
(and either the spec list is empty with a many-to-one relation, or it is
non-empty); otherwise look every spec up among the target's own columns. -/
def collectReferencedColumns (joinColumns : List JoinColumnMetadataArgs)
    (relation : RelationMetadata) : Except String (List ColumnMetadata) :=
  let hasAnyReferencedColumnName :=
    joinColumns.find? (fun joinColumnArgs => truthy joinColumnArgs.referencedColumnName)
  let manyToOneWithoutJoinColumn := joinColumns.isEmpty && relation.isManyToOne
  let hasJoinColumnWithoutAnyReferencedColumnName :=
    !joinColumns.isEmpty && hasAnyReferencedColumnName.isNone
  if manyToOneWithoutJoinColumn || hasJoinColumnWithoutAnyReferencedColumnName then
    .ok relation.inverseEntityMetadata.primaryColumns
  else
    lookupAllReferencedColumns relation.inverseEntityMetadata joinColumns

/-- The claim's wording of the resolver, written independently of the
source: the primary-key default fires exactly when the spec list is empty
and the relation is many-to-one, or the spec list is non-empty and no spec
carries an explicit referenced-property name; in every other case each
spec, in input order, is looked up among the target's own columns. -/
def collectReferencedColumnsSpec (joinColumns : List JoinColumnMetadataArgs)
    (relation : RelationMetadata) : Except String (List ColumnMetadata) :=
  if (joinColumns.isEmpty && relation.isManyToOne)
      || (!joinColumns.isEmpty
            && joinColumns.all (fun jc => !(truthy jc.referencedColumnName))) then
    .ok relation.inverseEntityMetadata.primaryColumns
  else
    lookupAllReferencedColumns relation.inverseEntityMetadata joinColumns

/-- The mutable column scope threaded through materialization: the owning
entity's `ownColumns` registry, and the embedded column list when the
relation lives inside an embedded type. -/
structure ScopeState where
  ownColumns : List ColumnMetadata
  embeddedColumns : Option (List ColumnMetadata)
  deriving DecidableEq, Repr

/-- The scope a relation starts from: the owning entity's own columns plus
the embedded columns when present. -/
def ScopeState.init (relation : RelationMetadata) : ScopeState :=
  { ownColumns := relation.entityMetadata.ownColumns
    embeddedColumns := relation.embeddedMetadata.map (fun em => em.columns) }

/-- `relation.embeddedMetadata ? relation.embeddedMetadata.columns :
relation.entityMetadata.ownColumns` over the threaded scope. -/
def relationalColumns (st : ScopeState) : List ColumnMetadata :=
  match st.embeddedColumns with
  | some columns => columns
  | none => st.ownColumns

/-- The computed target physical name of the join column for one
referenced column: the name of the first spec whose referenced column name
is falsy or equal to the referenced column's property name and whose name
is truthy; otherwise the naming strategy's `joinColumnName` of the
relation's property name and the referenced property name. -/
def computeJoinColumnName (connection : DataSource)
    (joinColumns : List JoinColumnMetadataArgs) (relation : RelationMetadata)
    (referencedColumn : ColumnMetadata) : String :=
  let joinColumnMetadataArg := joinColumns.find? (fun joinColumn =>
    (!(truthy joinColumn.referencedColumnName)
        || joinColumn.referencedColumnName == some referencedColumn.propertyName)
      && truthy joinColumn.name)
  match joinColumnMetadataArg with
  | some joinColumn => joinColumn.name.getD ""
  | none =>
      connection.namingStrategy.joinColumnName relation.propertyName
        referencedColumn.propertyName

/-- `relationalColumns.find(column => column.databaseNameWithoutPrefixes
=== joinColumnName)`. -/
def findRelationalColumn (st : ScopeState) (joinColumnName : String) :
    Option ColumnMetadata :=
  (relationalColumns st).find?
    (fun column => column.databaseNameWithoutPrefixes == joinColumnName)

/-- Replace the first column of the list whose physical name matches, the
value-level rendering of mutating the found object in place. -/
def replaceFirst (joinColumnName : String) (c : ColumnMetadata) :
    List ColumnMetadata → List ColumnMetadata
  | [] => []
  | column :: rest =>
      if column.databaseNameWithoutPrefixes == joinColumnName then c :: rest
      else column :: replaceFirst joinColumnName c rest

/-- In-place mutation of the found column, written back to the scope the
lookup searched (the embedded column list when present, else the owning
entity's own columns). -/
def mutateScope (st : ScopeState) (joinColumnName : String)
    (c : ColumnMetadata) : ScopeState :=
  match st.embeddedColumns with
  | some columns =>
      { st with embeddedColumns := some (replaceFirst joinColumnName c columns) }
  | none => { st with ownColumns := replaceFirst joinColumnName c st.ownColumns }

/-- Modelled from the spec: `EntityMetadata.registerColumn` is outside this
source core; per the spec the Column Descriptor Registry is append-only
during build and the Materializer registers each newly created column on
the owning entity, so registration appends the column once to
`ownColumns`. -/
def registerColumn (st : ScopeState) (c : ColumnMetadata) : ScopeState :=
  { st with ownColumns := st.ownColumns ++ [c] }

/-- Modelled from the spec: `OrmUtils.cloneObject` produces an independent
shallow copy of the descriptor; with value semantics the copy is the value
itself, and independence shows up as the registry not being updated by the
clone branch. -/
def cloneObject (c : ColumnMetadata) : ColumnMetadata := c

/-- Modelled from the spec: `ColumnMetadata.build` (outside this source
core) is the standard column finalization/validation step computing
derived physical-name normalization; our descriptors store their physical
names directly, so the step leaves the descriptor unchanged. -/
def ColumnMetadata.buildStep (_connection : DataSource) (c : ColumnMetadata) :
    ColumnMetadata := c

/-- The `new ColumnMetadata({... mode: "virtual" ...})` descriptor of the
source: attributes copied from the referenced column, primary/nullable
flags from the relation, and the MySQL-family generated-UUID length
special case. -/
def newVirtualColumn (connection : DataSource) (relation : RelationMetadata)
    (referencedColumn : ColumnMetadata) (joinColumnName : String) :
    ColumnMetadata :=
  { propertyName := relation.propertyName
    databaseName := joinColumnName
    databaseNameWithoutPrefixes := joinColumnName
    mode := "virtual"
    type := referencedColumn.type
    length :=
      if !(truthyStr referencedColumn.length)
          && (connection.driver.isMySQLFamily
                || connection.driver.options.type == "aurora-mysql")
          && !(connection.driver.normalizeType referencedColumn == "uuid")
          && (referencedColumn.generationStrategy == some "uuid"
                || referencedColumn.type == "uuid")
      then "36"
      else referencedColumn.length
    width := referencedColumn.width
    charset := referencedColumn.charset
    collation := referencedColumn.collation
    precision := referencedColumn.precision
    scale := referencedColumn.scale
    zerofill := referencedColumn.zerofill
    unsigned := referencedColumn.unsigned
    comment := referencedColumn.comment
    enum := referencedColumn.enum
    enumName := referencedColumn.enumName
    isPrimary := relation.isPrimary
    isNullable := relation.isNullable
    generationStrategy := none
    referencedColumn := none
    relationPropertyName := none }

/-- The shared mutation tail of the materializer: set the referenced-column
link, override the type to the referenced column's type, attach the column
to the relation and run the standard column-build step. -/
def finalizeColumn (connection : DataSource) (relation : RelationMetadata)
    (referencedColumn : ColumnMetadata) (c : ColumnMetadata) : ColumnMetadata :=
  ColumnMetadata.buildStep connection
    { c with
        referencedColumn := some referencedColumn.toColumnData
        type := referencedColumn.type
        relationPropertyName := some relation.propertyName }

/-- The body of the `referencedColumns.map(...)` loop of `collectColumns`:
materialize one join column for one referenced column against the current
scope, returning the column and the new scope. -/
def materializeColumn (connection : DataSource)
    (joinColumns : List JoinColumnMetadataArgs) (relation : RelationMetadata)
    (st : ScopeState) (referencedColumn : ColumnMetadata) :
    ColumnMetadata × ScopeState :=
  let joinColumnName := computeJoinColumnName connection joinColumns relation referencedColumn
  match findRelationalColumn st joinColumnName with
  | none =>
      let c := finalizeColumn connection relation referencedColumn
        (newVirtualColumn connection relation referencedColumn joinColumnName)
      (c, registerColumn st c)
  | some relationalColumn =>
      if relationalColumn.referencedColumn.isSome then
        (finalizeColumn connection relation referencedColumn
          (cloneObject relationalColumn), st)
      else
        let c := finalizeColumn connection relation referencedColumn relationalColumn
        (c, mutateScope st joinColumnName c)

/-- `collectColumns` of the source: materialize one join column per
referenced column, in order, threading the owning entity's column scope
(each loop iteration re-reads the registry, so a column registered by one
iteration is visible to the next). -/
def collectColumns (connection : DataSource)
    (joinColumns : List JoinColumnMetadataArgs) (relation : RelationMetadata) :
    List ColumnMetadata → ScopeState → List ColumnMetadata × ScopeState
  | [], st => ([], st)
  | referencedColumn :: rest, st =>
      let p := materializeColumn connection joinColumns relation st referencedColumn
      let q := collectColumns connection joinColumns relation rest p.2
      (p.1 :: q.1, q.2)

/-- Foreign key descriptor, the arguments the source passes to
`new ForeignKeyMetadata({...})`. -/
structure ForeignKeyMetadata where
  name : Option String
  entityMetadata : EntityMetadata
  referencedEntityMetadata : EntityMetadata
  columns : List ColumnMetadata
  referencedColumns : List ColumnMetadata
  onDelete : Option String
  onUpdate : Option String
  deferrable : Option String
  deriving DecidableEq, Repr

/-- Unique constraint descriptor, the arguments the source passes to
`new UniqueMetadata({...})`. -/
structure UniqueMetadata where
  entityMetadata : EntityMetadata
  columns : List ColumnMetadata
  name : String
  target : String
  deriving DecidableEq, Repr

/-- Modelled from the spec: `UniqueMetadata.build` (outside this source
core) finalizes the constraint keeping the explicitly given name, which the
source always supplies here, so the step leaves the descriptor
unchanged. -/
def UniqueMetadata.buildStep (_ns : NamingStrategyInterface)
    (u : UniqueMetadata) : UniqueMetadata := u

/-- The triple returned by `build`. -/
structure BuildResult where
  foreignKey : Option ForeignKeyMetadata
  columns : List ColumnMetadata
  uniqueConstraint : Option UniqueMetadata
  deriving DecidableEq, Repr

/-- `build` of the source: resolve referenced columns, materialize the join
columns (side effect: the threaded scope), then synthesize the foreign key
and, for one-to-one relations over non-primary columns, the supporting
unique constraint.  The final scope is returned alongside the triple. -/
def build (connection : DataSource) (joinColumns : List JoinColumnMetadataArgs)
    (relation : RelationMetadata) :
    Except String (BuildResult × ScopeState) :=
  match collectReferencedColumns joinColumns relation with
  | .error e => .error e
  | .ok referencedColumns =>
      let p := collectColumns connection joinColumns relation referencedColumns
        (ScopeState.init relation)
      if referencedColumns.isEmpty || !relation.createForeignKeyConstraints then
        .ok ({ foreignKey := none, columns := p.1, uniqueConstraint := none }, p.2)
      else
        let foreignKey : ForeignKeyMetadata :=
          { name := (joinColumns.head?).bind (fun jc => jc.foreignKeyConstraintName)
            entityMetadata := relation.entityMetadata
            referencedEntityMetadata := relation.inverseEntityMetadata
            columns := p.1
            referencedColumns := referencedColumns
            onDelete := relation.onDelete
            onUpdate := relation.onUpdate
            deferrable := relation.deferrable }
        if p.1.all (fun column => column.isPrimary) || !relation.isOneToOne then
          .ok ({ foreignKey := some foreignKey, columns := p.1,
                 uniqueConstraint := none }, p.2)
        else
          let uniqueConstraint : UniqueMetadata :=
            { entityMetadata := relation.entityMetadata
              columns := foreignKey.columns
              name := connection.namingStrategy.relationConstraintName
                relation.entityMetadata.tableName
                (foreignKey.columns.map (fun column => column.databaseName))
              target := relation.entityMetadata.target }
          .ok ({ foreignKey := some foreignKey, columns := p.1,
                 uniqueConstraint :=
                   some (UniqueMetadata.buildStep connection.namingStrategy
                     uniqueConstraint) }, p.2)

/-- The claim's wording of the target physical name of a materialized
column: the name of the first join-column spec whose referenced-property
name is unset or equals the referenced column's property name and whose
name is set; if no such spec exists, the naming strategy's
`joinColumnName` of the relation's property name and the referenced
column's property name. -/
def claimJoinColumnName (connection : DataSource)
    (joinColumns : List JoinColumnMetadataArgs) (relation : RelationMetadata)
    (referencedColumn : ColumnMetadata) : String :=
  match joinColumns.find? (fun jc =>
      (!(truthy jc.referencedColumnName)
          || jc.referencedColumnName == some referencedColumn.propertyName)
        && truthy jc.name) with
  | some jc => jc.name.getD ""
  | none =>
      connection.namingStrategy.joinColumnName relation.propertyName
        referencedColumn.propertyName

end RelationJoinColumnBuilder

/-- The MySQL-family generated-UUID length condition as the claim words
it: the referenced column has no explicit length, the driver is a
MySQL-compatible dialect, the driver's normalized type for the referenced
column is not `"uuid"`, and the referenced column's generation strategy is
`"uuid"` or its declared type is `"uuid"`. -/
def uuid36Condition (connection : DataSource) (r : ColumnMetadata) : Bool :=
  (r.length == "")
    && (connection.driver.isMySQLFamily
          || connection.driver.options.type == "aurora-mysql")
    && !(connection.driver.normalizeType r == "uuid")
    && (r.generationStrategy == some "uuid" || r.type == "uuid")

/-! Concrete fixtures used to instantiate the theorems below: a default
naming strategy, a non-MySQL and a MySQL connection, a target entity
`Category` with an integer primary key and a `title` column, and an owning
entity `Post`. -/

/-- A concrete naming strategy for the fixtures. -/
def exNamingStrategy : NamingStrategyInterface :=
  { joinColumnName := fun relationName referencedName =>
      relationName ++ "_" ++ referencedName
    relationConstraintName := fun tableName columnNames =>
      "UQ_" ++ tableName ++ "_" ++ String.intercalate "_" columnNames }

/-- A concrete non-MySQL connection. -/
def exConnection : DataSource :=
  { namingStrategy := exNamingStrategy
    driver :=
      { isMySQLFamily := false
        options := { type := "postgres" }
        normalizeType := fun c => c.type } }

/-- A concrete MySQL-family connection. -/
def exConnectionMySQL : DataSource :=
  { namingStrategy := exNamingStrategy
    driver :=
      { isMySQLFamily := true
        options := { type := "mysql" }
        normalizeType := fun c => c.type } }

/-- The target entity's integer primary-key column. -/
def idColumn : ColumnMetadata :=
  { propertyName := "id", databaseName := "id",
    databaseNameWithoutPrefixes := "id", type := "int", isPrimary := true }

/-- A non-primary own column of the target entity. -/
def titleColumn : ColumnMetadata :=
  { propertyName := "title", databaseName := "title",
    databaseNameWithoutPrefixes := "title", type := "varchar" }

/-- A generated-UUID primary-key column without an explicit length. -/
def uuidColumn : ColumnMetadata :=
  { propertyName := "uid", databaseName := "uid",
    databaseNameWithoutPrefixes := "uid", type := "varchar",
    generationStrategy := some "uuid", isPrimary := true }

/-- The target entity. -/
def exCategory : EntityMetadata :=
  { name := "Category", tableName := "category", target := "Category",
    ownColumns := [idColumn, titleColumn] }

/-- The owning entity, initially without columns. -/
def exPost : EntityMetadata :=
  { name := "Post", tableName := "post", target := "Post", ownColumns := [] }

/-- A plain many-to-one relation `Post.category -> Category` with no
join-column specs. -/
def exRelation : RelationMetadata :=
  { propertyName := "category", isManyToOne := true, isOneToOne := false,
    isPrimary := false, isNullable := true,
    createForeignKeyConstraints := true,
    entityMetadata := exPost, inverseEntityMetadata := exCategory }

/-- The resolution of `exRelation`. -/
def exBuild : Except String (RelationJoinColumnBuilder.BuildResult × RelationJoinColumnBuilder.ScopeState) :=
  RelationJoinColumnBuilder.build exConnection [] exRelation

/-- The triple returned for `exRelation`. -/
def exResult : RelationJoinColumnBuilder.BuildResult :=
  match exBuild with
  | .ok p => p.1
  | .error _ => { foreignKey := none, columns := [], uniqueConstraint := none }

/-- The owning scope after resolving `exRelation`. -/
def exScope2 : RelationJoinColumnBuilder.ScopeState :=
  match exBuild with
  | .ok p => p.2
  | .error _ => { ownColumns := [], embeddedColumns := none }

/-- The foreign key produced for `exRelation`. -/
def exForeignKey : RelationJoinColumnBuilder.ForeignKeyMetadata :=
  match exResult.foreignKey with
  | some fk => fk
  | none =>
      { name := none, entityMetadata := exPost,
        referencedEntityMetadata := exCategory, columns := [],
        referencedColumns := [], onDelete := none, onUpdate := none,
        deferrable := none }

/-- A join-column spec carrying only an explicit physical name. -/
def sharedNameSpec : JoinColumnMetadataArgs := { name := some "shared" }

/-- First relation claiming the shared column name. -/
def exRelationA : RelationMetadata :=
  { propertyName := "a", isManyToOne := true, isOneToOne := false,
    isPrimary := false, isNullable := true,
    createForeignKeyConstraints := true,
    entityMetadata := exPost, inverseEntityMetadata := exCategory }

/-- The owning registry after resolving the first claimant. -/
def exOwnAfterA : List ColumnMetadata :=
  match RelationJoinColumnBuilder.build exConnection [sharedNameSpec] exRelationA with
  | .ok p => p.2.ownColumns
  | .error _ => []

/-- The owning entity as the second claimant sees it. -/
def exPostAfterA : EntityMetadata := { exPost with ownColumns := exOwnAfterA }

/-- Second relation resolving onto the same computed physical name. -/
def exRelationB : RelationMetadata :=
  { propertyName := "b", isManyToOne := true, isOneToOne := false,
    isPrimary := false, isNullable := true,
    createForeignKeyConstraints := true,
    entityMetadata := exPostAfterA, inverseEntityMetadata := exCategory }

/-- The scope the second claimant starts from. -/
def exScopeB : RelationJoinColumnBuilder.ScopeState :=
  RelationJoinColumnBuilder.ScopeState.init exRelationB

/-- The already-claimed column the second claimant finds. -/
def exClaimedColumn : ColumnMetadata :=
  (RelationJoinColumnBuilder.findRelationalColumn exScopeB
    (RelationJoinColumnBuilder.computeJoinColumnName exConnection
      [sharedNameSpec] exRelationB idColumn)).getD idColumn

/-- The referenced-column link the claimed column already carries. -/
def exClaimedLink : ColumnData :=
  exClaimedColumn.referencedColumn.getD idColumn.toColumnData

/-- The resolution of the second claimant. -/
def exBuildB : Except String (RelationJoinColumnBuilder.BuildResult × RelationJoinColumnBuilder.ScopeState) :=
  RelationJoinColumnBuilder.build exConnection [sharedNameSpec] exRelationB

/-- The triple returned for the second claimant. -/
def exResultB : RelationJoinColumnBuilder.BuildResult :=
  match exBuildB with
  | .ok p => p.1
  | .error _ => { foreignKey := none, columns := [], uniqueConstraint := none }

/-- The owning scope after the second claimant resolved. -/
def exScopeB2 : RelationJoinColumnBuilder.ScopeState :=
  match exBuildB with
  | .ok p => p.2
  | .error _ => { ownColumns := [], embeddedColumns := none }

/-- The clone returned to the second claimant. -/
def exClone : ColumnMetadata := exResultB.columns.headD idColumn

/-- A join-column spec naming a referenced property the target lacks. -/
def missingSpec : JoinColumnMetadataArgs :=
  { referencedColumnName := some "missing" }

/-- A fully specified join-column spec referencing the target's `id`. -/
def namedIdSpec : JoinColumnMetadataArgs :=
  { name := some "cat_id", referencedColumnName := some "id" }

/-- A join-column spec with a name but no referenced-property name. -/
def nameOnlySpec : JoinColumnMetadataArgs := { name := some "cat_x" }

/-- A target entity with a generated-UUID primary key. -/
def exIdentEntity : EntityMetadata :=
  { name := "Ident", tableName := "ident", target := "Ident",
    ownColumns := [uuidColumn] }

/-- A many-to-one relation referencing the generated-UUID target. -/
def exUuidRelation : RelationMetadata :=
  { propertyName := "ident", isManyToOne := true, isOneToOne := false,
    isPrimary := false, isNullable := true,
    createForeignKeyConstraints := true,
    entityMetadata := exPost, inverseEntityMetadata := exIdentEntity }

/-- The scope the UUID relation starts from. -/
def exUuidScope : RelationJoinColumnBuilder.ScopeState :=
  RelationJoinColumnBuilder.ScopeState.init exUuidRelation

/-- The inverse (non-owning) side of a one-to-one relation: no join-column
specs and not many-to-one, so the referenced columns resolve to the empty
list. -/
def exInverseOneToOne : RelationMetadata :=
  { propertyName := "profile", isManyToOne := false, isOneToOne := true,
    isPrimary := false, isNullable := true,
    createForeignKeyConstraints := true,
    entityMetadata := exPost, inverseEntityMetadata := exCategory }

namespace RelationJoinColumnBuilder

theorem find?_isNone_eq_all_not {α : Type} (p : α → Bool) :
    ∀ l : List α, (l.find? p).isNone = l.all (fun x => !(p x))
  | [] => rfl
  | x :: xs => by
      by_cases h : p x = true
      · simp [List.find?, h]
      · have h' : p x = false := by revert h; cases p x <;> simp
        simp [List.find?, h', find?_isNone_eq_all_not p xs]

theorem computeJoinColumnName_eq_claim (connection : DataSource)
    (joinColumns : List JoinColumnMetadataArgs) (relation : RelationMetadata)
    (referencedColumn : ColumnMetadata) :
    computeJoinColumnName connection joinColumns relation referencedColumn
      = claimJoinColumnName connection joinColumns relation referencedColumn := rfl

theorem materializeColumn_fst_fields (connection : DataSource)
    (joinColumns : List JoinColumnMetadataArgs) (relation : RelationMetadata)
    (st : ScopeState) (r : ColumnMetadata) :
    (materializeColumn connection joinColumns relation st r).1.type = r.type ∧
    (materializeColumn connection joinColumns relation st r).1.referencedColumn
      = some r.toColumnData ∧
    (materializeColumn connection joinColumns relation st r).1.relationPropertyName
      = some relation.propertyName := by
  unfold materializeColumn
  dsimp only
  split
  · simp [finalizeColumn, ColumnMetadata.buildStep]
  · split
    · simp [finalizeColumn, ColumnMetadata.buildStep, cloneObject]
    · simp [finalizeColumn, ColumnMetadata.buildStep]

theorem materializeColumn_fst_name (connection : DataSource)
    (joinColumns : List JoinColumnMetadataArgs) (relation : RelationMetadata)
    (st : ScopeState) (r : ColumnMetadata) :
    (materializeColumn connection joinColumns relation st r).1.databaseNameWithoutPrefixes
      = computeJoinColumnName connection joinColumns relation r := by
  unfold materializeColumn
  dsimp only
  split
  · simp [finalizeColumn, ColumnMetadata.buildStep, newVirtualColumn]
  next c₀ heq =>
    unfold findRelationalColumn at heq
    have hp := List.find?_some heq
    have hname : c₀.databaseNameWithoutPrefixes
        = computeJoinColumnName connection joinColumns relation r := by
      simpa using hp
    split
    · simpa [finalizeColumn, ColumnMetadata.buildStep, cloneObject] using hname
    · simpa [finalizeColumn, ColumnMetadata.buildStep] using hname

theorem collectColumns_forall₂ (connection : DataSource)
    (joinColumns : List JoinColumnMetadataArgs) (relation : RelationMetadata) :
    ∀ (refs : List ColumnMetadata) (st : ScopeState),
      List.Forall₂
        (fun c r => c.type = r.type ∧ c.referencedColumn = some r.toColumnData)
        (collectColumns connection joinColumns relation refs st).1 refs
  | [], _ => by simp [collectColumns]
  | r :: rest, st => by
      have hm := materializeColumn_fst_fields connection joinColumns relation st r
      exact List.Forall₂.cons ⟨hm.1, hm.2.1⟩
        (collectColumns_forall₂ connection joinColumns relation rest
          (materializeColumn connection joinColumns relation st r).2)

theorem find?_isSome_of_mem {α : Type} (p : α → Bool) :
    ∀ (l : List α) (x : α), x ∈ l → p x = true → (l.find? p).isSome = true
  | [], x, hx, _ => absurd hx (List.not_mem_nil x)
  | y :: rest, x, hx, hpx => by
      by_cases hy : p y = true
      · simp [List.find?, hy]
      · have hy' : p y = false := by revert hy; cases p y <;> simp
        rcases List.mem_cons.mp hx with h | h
        · rw [← h] at hy'; rw [hpx] at hy'; cases hy'
        · simp [List.find?, hy', find?_isSome_of_mem p rest x h hpx]

theorem lookupAllReferencedColumns_error (target : EntityMetadata)
    (jc : JoinColumnMetadataArgs)
    (hfail : target.ownColumns.find?
        (fun c => some c.propertyName == jc.referencedColumnName) = none) :
    ∀ (l : List JoinColumnMetadataArgs), jc ∈ l →
      ∃ msg, lookupAllReferencedColumns target l = .error msg
  | [], h => absurd h (List.not_mem_nil jc)
  | x :: rest, hmem => by
      rcases List.mem_cons.mp hmem with h | h
      · rw [← h]
        exact ⟨"Referenced column " ++ (jc.referencedColumnName.getD "undefined")
            ++ " was not found in entity " ++ target.name,
          by unfold lookupAllReferencedColumns lookupReferencedColumn; rw [hfail]⟩
      · cases hl : lookupReferencedColumn target x with
        | error e => exact ⟨e, by unfold lookupAllReferencedColumns; rw [hl]⟩
        | ok c =>
            obtain ⟨msg, hm⟩ :=
              lookupAllReferencedColumns_error target jc hfail rest h
            exact ⟨msg, by unfold lookupAllReferencedColumns; rw [hl, hm]; rfl⟩

theorem collectReferencedColumns_else (joinColumns : List JoinColumnMetadataArgs)
    (relation : RelationMetadata) (jc1 : JoinColumnMetadataArgs)
    (h1 : jc1 ∈ joinColumns) (ht : truthy jc1.referencedColumnName = true) :
    collectReferencedColumns joinColumns relation
      = lookupAllReferencedColumns relation.inverseEntityMetadata joinColumns := by
  unfold collectReferencedColumns
  dsimp only
  have hne : joinColumns.isEmpty = false := by
    cases joinColumns with
    | nil => cases h1
    | cons _ _ => rfl
  have hsome : (joinColumns.find?
      (fun j => truthy j.referencedColumnName)).isSome = true :=
    find?_isSome_of_mem _ joinColumns jc1 h1 ht
  have hnone : (joinColumns.find?
      (fun j => truthy j.referencedColumnName)).isNone = false := by
    cases hf : joinColumns.find? (fun j => truthy j.referencedColumnName) with
    | none => rw [hf] at hsome; exact absurd hsome (by simp)
    | some _ => rfl
  simp [hne, hnone]

theorem build_error_of_collect_error (connection : DataSource)
    (joinColumns : List JoinColumnMetadataArgs) (relation : RelationMetadata)
    (msg : String)
    (hcr : collectReferencedColumns joinColumns relation = .error msg) :
    build connection joinColumns relation = .error msg := by
  unfold build
  rw [hcr]

end RelationJoinColumnBuilder

/-- Claim C1: `collectReferencedColumns` returns the target entity's full
primary-key column list, in its defined order, exactly when the spec list
is empty and the relation is many-to-one or the spec list is non-empty and
no spec carries an explicit referenced-property name; in every other case
it looks up, for each spec in input order, the target's own column whose
property name equals that spec's referenced-property name. -/
theorem C1_collectReferencedColumns_matches_claim
    (joinColumns : List JoinColumnMetadataArgs) (relation : RelationMetadata) :
    RelationJoinColumnBuilder.collectReferencedColumns joinColumns relation
      = RelationJoinColumnBuilder.collectReferencedColumnsSpec joinColumns relation := by
  unfold RelationJoinColumnBuilder.collectReferencedColumns
    RelationJoinColumnBuilder.collectReferencedColumnsSpec
  simp only [RelationJoinColumnBuilder.find?_isNone_eq_all_not]

/-- Claim C3: the physical name of a materialized column is the name of
the first join-column spec whose referenced-property name is unset or
equals the referenced column's property name and whose name is set; if no
such spec exists, it is the naming strategy's `joinColumnName` applied to
the relation's property name and the referenced column's property name. -/
theorem C3_materialized_column_physical_name (connection : DataSource)
    (joinColumns : List JoinColumnMetadataArgs) (relation : RelationMetadata)
    (st : RelationJoinColumnBuilder.ScopeState) (r : ColumnMetadata) :
    (RelationJoinColumnBuilder.materializeColumn connection joinColumns relation
        st r).1.databaseNameWithoutPrefixes
      = RelationJoinColumnBuilder.claimJoinColumnName connection joinColumns
          relation r := by
  rw [RelationJoinColumnBuilder.materializeColumn_fst_name]
  exact RelationJoinColumnBuilder.computeJoinColumnName_eq_claim connection
    joinColumns relation r

/-- Claim C7: a newly created virtual join column's length is forced to
`"36"` exactly when the referenced column has no explicit length, the
driver is a MySQL-compatible dialect, the driver's normalized type for the
referenced column is not `"uuid"`, and the referenced column's generation
strategy is `"uuid"` or its declared type is `"uuid"`; in all other cases
the new column's length equals the referenced column's length. -/
theorem C7_uuid_length_special_case (connection : DataSource)
    (joinColumns : List JoinColumnMetadataArgs) (relation : RelationMetadata)
    (st : RelationJoinColumnBuilder.ScopeState) (r : ColumnMetadata)
    (hfind : RelationJoinColumnBuilder.findRelationalColumn st
        (RelationJoinColumnBuilder.computeJoinColumnName connection joinColumns
          relation r) = none) :
    (RelationJoinColumnBuilder.materializeColumn connection joinColumns relation
        st r).1.length
      = (if uuid36Condition connection r then "36" else r.length) := by
  unfold RelationJoinColumnBuilder.materializeColumn
  dsimp only
  rw [hfind]
  simp only [RelationJoinColumnBuilder.finalizeColumn,
    RelationJoinColumnBuilder.ColumnMetadata.buildStep,
    RelationJoinColumnBuilder.newVirtualColumn, uuid36Condition, truthyStr,
    Bool.not_not]

/-- Claim C2: whenever `build` returns a foreign key, its owning-column
list is the returned column list, its referenced-column list is the
resolved referenced-column list, the two lists have equal length and are
paired positionally, with each owning column's type overridden to its
paired referenced column's type and its referenced-column link pointing to
that referenced column. -/
theorem C2_foreign_key_positional_pairing (connection : DataSource)
    (joinColumns : List JoinColumnMetadataArgs) (relation : RelationMetadata)
    (res : RelationJoinColumnBuilder.BuildResult) (st2 : RelationJoinColumnBuilder.ScopeState)
    (fk : RelationJoinColumnBuilder.ForeignKeyMetadata)
    (h : RelationJoinColumnBuilder.build connection joinColumns relation
        = .ok (res, st2))
    (hfk : res.foreignKey = some fk) :
    fk.columns = res.columns ∧
    RelationJoinColumnBuilder.collectReferencedColumns joinColumns relation
      = .ok fk.referencedColumns ∧
    fk.columns.length = fk.referencedColumns.length ∧
    List.Forall₂
      (fun c r => c.type = r.type ∧ c.referencedColumn = some r.toColumnData)
      fk.columns fk.referencedColumns := by
  unfold RelationJoinColumnBuilder.build at h
  split at h
  · exact absurd h (by simp)
  next refs heq =>
    dsimp only at h
    split at h
    · simp only [Except.ok.injEq, Prod.mk.injEq] at h
      obtain ⟨h1, _⟩ := h
      rw [← h1] at hfk
      simp at hfk
    · split at h
      · simp only [Except.ok.injEq, Prod.mk.injEq] at h
        obtain ⟨h1, _⟩ := h
        rw [← h1] at hfk
        simp only [Option.some.injEq] at hfk
        subst hfk
        rw [← h1]
        refine ⟨rfl, heq, ?_, ?_⟩
        · exact List.Forall₂.length_eq
            (RelationJoinColumnBuilder.collectColumns_forall₂ connection
              joinColumns relation refs (RelationJoinColumnBuilder.ScopeState.init relation))
        · exact RelationJoinColumnBuilder.collectColumns_forall₂ connection
            joinColumns relation refs (RelationJoinColumnBuilder.ScopeState.init relation)
      · simp only [Except.ok.injEq, Prod.mk.injEq] at h
        obtain ⟨h1, _⟩ := h
        rw [← h1] at hfk
        simp only [Option.some.injEq] at hfk
        subst hfk
        rw [← h1]
        refine ⟨rfl, heq, ?_, ?_⟩
        · exact List.Forall₂.length_eq
            (RelationJoinColumnBuilder.collectColumns_forall₂ connection
              joinColumns relation refs (RelationJoinColumnBuilder.ScopeState.init relation))
        · exact RelationJoinColumnBuilder.collectColumns_forall₂ connection
            joinColumns relation refs (RelationJoinColumnBuilder.ScopeState.init relation)

/-- Claim C4: when the relevant column scope already contains a column with
the computed physical name and that column already carries a
referenced-column link, resolving onto that name mutates only a clone: the
scope (and so the original column, its type and its referenced-column
link) is unchanged, and the returned descriptor is an independent copy of
the original with the new link, overridden type and relation attachment. -/
theorem C4_clone_protects_claimed_column (connection : DataSource)
    (joinColumns : List JoinColumnMetadataArgs) (relation : RelationMetadata)
    (st : RelationJoinColumnBuilder.ScopeState) (r c₀ : ColumnMetadata)
    (r₀ : ColumnData)
    (hfind : RelationJoinColumnBuilder.findRelationalColumn st
        (RelationJoinColumnBuilder.computeJoinColumnName connection joinColumns
          relation r) = some c₀)
    (hlink : c₀.referencedColumn = some r₀) :
    (RelationJoinColumnBuilder.materializeColumn connection joinColumns relation
        st r).2 = st ∧
    RelationJoinColumnBuilder.findRelationalColumn
        (RelationJoinColumnBuilder.materializeColumn connection joinColumns
          relation st r).2
        (RelationJoinColumnBuilder.computeJoinColumnName connection joinColumns
          relation r) = some c₀ ∧
    (RelationJoinColumnBuilder.materializeColumn connection joinColumns relation
        st r).1
      = RelationJoinColumnBuilder.ColumnMetadata.buildStep connection
          { c₀ with
              referencedColumn := some r.toColumnData
              type := r.type
              relationPropertyName := some relation.propertyName } := by
  have hs : c₀.referencedColumn.isSome = true := by rw [hlink]; rfl
  have hm : RelationJoinColumnBuilder.materializeColumn connection joinColumns
      relation st r
      = (RelationJoinColumnBuilder.ColumnMetadata.buildStep connection
          { c₀ with
              referencedColumn := some r.toColumnData
              type := r.type
              relationPropertyName := some relation.propertyName }, st) := by
    unfold RelationJoinColumnBuilder.materializeColumn
    dsimp only
    rw [hfind]
    simp [hs, RelationJoinColumnBuilder.cloneObject,
      RelationJoinColumnBuilder.finalizeColumn]
  rw [hm]
  exact ⟨rfl, hfind, rfl⟩

/-- Claim C5: a join-column spec naming a referenced property that does not
exist among the target entity's own columns makes the whole resolution
fail with the referenced-column-not-found error: `build` returns that
error, so no column, foreign key or unique constraint is produced and the
owning entity is untouched. -/
theorem C5_missing_referenced_column_fails (connection : DataSource)
    (joinColumns : List JoinColumnMetadataArgs) (relation : RelationMetadata)
    (jc : JoinColumnMetadataArgs)
    (hmem : jc ∈ joinColumns)
    (htr : truthy jc.referencedColumnName = true)
    (hmissing : ∀ c ∈ relation.inverseEntityMetadata.ownColumns,
        some c.propertyName ≠ jc.referencedColumnName) :
    ∃ msg,
      RelationJoinColumnBuilder.collectReferencedColumns joinColumns relation
        = .error msg ∧
      RelationJoinColumnBuilder.build connection joinColumns relation
        = .error msg := by
  have hfail : relation.inverseEntityMetadata.ownColumns.find?
      (fun c => some c.propertyName == jc.referencedColumnName) = none := by
    rw [List.find?_eq_none]
    intro c hc
    simpa using hmissing c hc
  obtain ⟨msg, hm⟩ :=
    RelationJoinColumnBuilder.lookupAllReferencedColumns_error
      relation.inverseEntityMetadata jc hfail joinColumns hmem
  have hcol :
      RelationJoinColumnBuilder.collectReferencedColumns joinColumns relation
        = .error msg :=
    (RelationJoinColumnBuilder.collectReferencedColumns_else joinColumns
      relation jc hmem htr).trans hm
  exact ⟨msg, hcol,
    RelationJoinColumnBuilder.build_error_of_collect_error connection
      joinColumns relation msg hcol⟩

/-- Claim C10: when the spec list mixes specs with and without an explicit
referenced-property name, the per-spec lookup branch is taken for all
specs, the spec lacking a referenced-property name finds no target column,
and resolution fails with the referenced-column-not-found error instead of
falling back to primary-key defaulting. -/
theorem C10_mixed_specs_fail (connection : DataSource)
    (joinColumns : List JoinColumnMetadataArgs) (relation : RelationMetadata)
    (jc1 jc2 : JoinColumnMetadataArgs)
    (h1 : jc1 ∈ joinColumns)
    (ht1 : truthy jc1.referencedColumnName = true)
    (h2 : jc2 ∈ joinColumns)
    (ht2 : jc2.referencedColumnName = none) :
    ∃ msg,
      RelationJoinColumnBuilder.collectReferencedColumns joinColumns relation
        = .error msg ∧
      RelationJoinColumnBuilder.build connection joinColumns relation
        = .error msg := by
  have hfail : relation.inverseEntityMetadata.ownColumns.find?
      (fun c => some c.propertyName == jc2.referencedColumnName) = none := by
    rw [List.find?_eq_none]
    intro c _
    rw [ht2]
    simp
  obtain ⟨msg, hm⟩ :=
    RelationJoinColumnBuilder.lookupAllReferencedColumns_error
      relation.inverseEntityMetadata jc2 hfail joinColumns h2
  have hcol :
      RelationJoinColumnBuilder.collectReferencedColumns joinColumns relation
        = .error msg :=
    (RelationJoinColumnBuilder.collectReferencedColumns_else joinColumns
      relation jc1 h1 ht1).trans hm
  exact ⟨msg, hcol,
    RelationJoinColumnBuilder.build_error_of_collect_error connection
      joinColumns relation msg hcol⟩

/-- Claim C6: when `build` produces a foreign key, the unique constraint is
absent exactly when every materialized column is a primary-key column or
the relation is not one-to-one; otherwise the unique constraint spans
exactly the foreign key's columns and its name is the naming strategy's
`relationConstraintName` of the owning table name and the columns'
physical (database) names. -/
theorem C6_unique_constraint_gating (connection : DataSource)
    (joinColumns : List JoinColumnMetadataArgs) (relation : RelationMetadata)
    (res : RelationJoinColumnBuilder.BuildResult)
    (st2 : RelationJoinColumnBuilder.ScopeState)
    (fk : RelationJoinColumnBuilder.ForeignKeyMetadata)
    (h : RelationJoinColumnBuilder.build connection joinColumns relation
        = .ok (res, st2))
    (hfk : res.foreignKey = some fk) :
    (res.uniqueConstraint = none ↔
      ((∀ c ∈ res.columns, c.isPrimary = true) ∨ relation.isOneToOne = false)) ∧
    (∀ u, res.uniqueConstraint = some u →
      u.columns = fk.columns ∧
      u.name = connection.namingStrategy.relationConstraintName
          relation.entityMetadata.tableName
          (fk.columns.map (fun c => c.databaseName)) ∧
      u.entityMetadata = relation.entityMetadata) := by
  unfold RelationJoinColumnBuilder.build at h
  split at h
  · exact absurd h (by simp)
  next refs heq =>
    dsimp only at h
    split at h
    · simp only [Except.ok.injEq, Prod.mk.injEq] at h
      obtain ⟨h1, _⟩ := h
      rw [← h1] at hfk
      simp at hfk
    · split at h
      next hprim =>
        simp only [Except.ok.injEq, Prod.mk.injEq] at h
        obtain ⟨h1, _⟩ := h
        rw [← h1] at hfk ⊢
        refine ⟨⟨fun _ => ?_, fun _ => rfl⟩, ?_⟩
        · simpa [List.all_eq_true, Bool.not_eq_true'] using hprim
        · intro u hu
          simp at hu
      next hprim =>
        simp only [Except.ok.injEq, Prod.mk.injEq] at h
        obtain ⟨h1, _⟩ := h
        rw [← h1] at hfk
        simp only [Option.some.injEq] at hfk
        rw [← h1, ← hfk]
        have hprim' :
            ¬ ((∀ c ∈ (RelationJoinColumnBuilder.collectColumns connection
                joinColumns relation refs
                (RelationJoinColumnBuilder.ScopeState.init relation)).1,
                  c.isPrimary = true) ∨ relation.isOneToOne = false) := by
          intro hcontra
          apply hprim
          simp only [Bool.or_eq_true, List.all_eq_true, Bool.not_eq_true']
          exact hcontra
        refine ⟨⟨fun hn => ?_, fun hr => absurd hr hprim'⟩, ?_⟩
        · simp at hn
        · intro u hu
          simp only [Option.some.injEq] at hu
          rw [← hu]
          exact ⟨rfl, rfl, rfl⟩

/-- Claim C8: when the resolved referenced-column list is empty or the
relation's `createForeignKeyConstraints` flag is false, `build` returns
with no foreign key and no unique constraint while the materialized column
list is still returned, and that list is empty when the referenced-column
list is empty. -/
theorem C8_no_foreign_key_cases (connection : DataSource)
    (joinColumns : List JoinColumnMetadataArgs) (relation : RelationMetadata)
    (refs : List ColumnMetadata)
    (hcr : RelationJoinColumnBuilder.collectReferencedColumns joinColumns
        relation = .ok refs)
    (hcond : refs = [] ∨ relation.createForeignKeyConstraints = false) :
    RelationJoinColumnBuilder.build connection joinColumns relation
      = .ok ({ foreignKey := none
               columns := (RelationJoinColumnBuilder.collectColumns connection
                 joinColumns relation refs
                 (RelationJoinColumnBuilder.ScopeState.init relation)).1
               uniqueConstraint := none },
             (RelationJoinColumnBuilder.collectColumns connection joinColumns
               relation refs
               (RelationJoinColumnBuilder.ScopeState.init relation)).2) ∧
    (refs = [] →
      (RelationJoinColumnBuilder.collectColumns connection joinColumns relation
        refs (RelationJoinColumnBuilder.ScopeState.init relation)).1 = []) := by
  have hb : (refs.isEmpty || !relation.createForeignKeyConstraints) = true := by
    rcases hcond with h | h
    · rw [h]; rfl
    · rw [h]; simp
  constructor
  · unfold RelationJoinColumnBuilder.build
    rw [hcr]
    dsimp only
    simp only [hb, if_true]
  · intro h
    rw [h]
    rfl

/-- Claim C9 (amended): a freshly created virtual column is registered on
the owning entity by appending it exactly once; when the computed name
finds an already-claimed column, the returned descriptor is a clone that
is not registered at all — the scope, including the original descriptor,
is left unchanged, which is how a duplicate of that physical name is
avoided. -/
theorem C9_registration_amended (connection : DataSource)
    (joinColumns : List JoinColumnMetadataArgs) (relation : RelationMetadata)
    (st : RelationJoinColumnBuilder.ScopeState) (r : ColumnMetadata) :
    (RelationJoinColumnBuilder.findRelationalColumn st
        (RelationJoinColumnBuilder.computeJoinColumnName connection joinColumns
          relation r) = none →
      (RelationJoinColumnBuilder.materializeColumn connection joinColumns
          relation st r).2.ownColumns
        = st.ownColumns
            ++ [(RelationJoinColumnBuilder.materializeColumn connection
                  joinColumns relation st r).1]) ∧
    (∀ c₀, RelationJoinColumnBuilder.findRelationalColumn st
        (RelationJoinColumnBuilder.computeJoinColumnName connection joinColumns
          relation r) = some c₀ →
      c₀.referencedColumn.isSome = true →
      (RelationJoinColumnBuilder.materializeColumn connection joinColumns
          relation st r).2 = st) := by
  constructor
  · intro hfind
    unfold RelationJoinColumnBuilder.materializeColumn
    dsimp only
    rw [hfind]
    rfl
  · intro c₀ hfind hs
    unfold RelationJoinColumnBuilder.materializeColumn
    dsimp only
    rw [hfind]
    simp only [hs, if_true]

/-- Claim C9 counterexample: with two many-to-one relations `a` and `b` of
`Post` resolving onto the same explicit physical name `shared`, the second
resolution returns a clone that is not an element of the owning entity's
column scope afterwards — only the original descriptor (claimed by `a`)
is registered, so the claim that both descriptors are registered fails. -/
theorem C9_counterexample :
    RelationJoinColumnBuilder.build exConnection [sharedNameSpec] exRelationB
      = .ok (exResultB, exScopeB2) ∧
    exResultB.columns = [exClone] ∧
    exClone.relationPropertyName = some "b" ∧
    exClone ∉ exScopeB2.ownColumns :=
  ⟨rfl, rfl, rfl, by decide⟩

/-- Witness for C2 at the plain many-to-one fixture relation. -/
theorem C2_foreign_key_positional_pairing_witness :
    (RelationJoinColumnBuilder.build exConnection [] exRelation
      = .ok (exResult, exScope2)) ∧
    exResult.foreignKey = some exForeignKey ∧
    (exForeignKey.columns = exResult.columns ∧
     RelationJoinColumnBuilder.collectReferencedColumns [] exRelation
       = .ok exForeignKey.referencedColumns ∧
     exForeignKey.columns.length = exForeignKey.referencedColumns.length ∧
     List.Forall₂
       (fun c r => c.type = r.type ∧ c.referencedColumn = some r.toColumnData)
       exForeignKey.columns exForeignKey.referencedColumns) :=
  ⟨rfl, rfl,
    C2_foreign_key_positional_pairing exConnection [] exRelation exResult
      exScope2 exForeignKey rfl rfl⟩

/-- Witness for C4 at the second claimant of the shared column name. -/
theorem C4_clone_protects_claimed_column_witness :
    (RelationJoinColumnBuilder.findRelationalColumn exScopeB
        (RelationJoinColumnBuilder.computeJoinColumnName exConnection
          [sharedNameSpec] exRelationB idColumn) = some exClaimedColumn) ∧
    exClaimedColumn.referencedColumn = some exClaimedLink ∧
    ((RelationJoinColumnBuilder.materializeColumn exConnection [sharedNameSpec]
        exRelationB exScopeB idColumn).2 = exScopeB ∧
     RelationJoinColumnBuilder.findRelationalColumn
        (RelationJoinColumnBuilder.materializeColumn exConnection
          [sharedNameSpec] exRelationB exScopeB idColumn).2
        (RelationJoinColumnBuilder.computeJoinColumnName exConnection
          [sharedNameSpec] exRelationB idColumn) = some exClaimedColumn ∧
     (RelationJoinColumnBuilder.materializeColumn exConnection [sharedNameSpec]
        exRelationB exScopeB idColumn).1
       = RelationJoinColumnBuilder.ColumnMetadata.buildStep exConnection
           { exClaimedColumn with
               referencedColumn := some idColumn.toColumnData
               type := idColumn.type
               relationPropertyName := some exRelationB.propertyName }) :=
  ⟨rfl, rfl,
    C4_clone_protects_claimed_column exConnection [sharedNameSpec] exRelationB
      exScopeB idColumn exClaimedColumn exClaimedLink rfl rfl⟩

/-- Witness for C5 at a spec naming a nonexistent referenced property. -/
theorem C5_missing_referenced_column_fails_witness :
    missingSpec ∈ [missingSpec] ∧
    truthy missingSpec.referencedColumnName = true ∧
    (∀ c ∈ exRelation.inverseEntityMetadata.ownColumns,
      some c.propertyName ≠ missingSpec.referencedColumnName) ∧
    (∃ msg,
      RelationJoinColumnBuilder.collectReferencedColumns [missingSpec]
        exRelation = .error msg ∧
      RelationJoinColumnBuilder.build exConnection [missingSpec] exRelation
        = .error msg) :=
  ⟨List.mem_singleton.mpr rfl, rfl, by decide,
    C5_missing_referenced_column_fails exConnection [missingSpec] exRelation
      missingSpec (List.mem_singleton.mpr rfl) rfl (by decide)⟩

/-- Witness for C6 at the plain many-to-one fixture relation (foreign key
present, unique constraint gated off because the relation is not
one-to-one). -/
theorem C6_unique_constraint_gating_witness :
    (RelationJoinColumnBuilder.build exConnection [] exRelation
      = .ok (exResult, exScope2)) ∧
    exResult.foreignKey = some exForeignKey ∧
    ((exResult.uniqueConstraint = none ↔
        ((∀ c ∈ exResult.columns, c.isPrimary = true)
          ∨ exRelation.isOneToOne = false)) ∧
     (∀ u, exResult.uniqueConstraint = some u →
        u.columns = exForeignKey.columns ∧
        u.name = exConnection.namingStrategy.relationConstraintName
            exRelation.entityMetadata.tableName
            (exForeignKey.columns.map (fun c => c.databaseName)) ∧
        u.entityMetadata = exRelation.entityMetadata)) :=
  ⟨rfl, rfl,
    C6_unique_constraint_gating exConnection [] exRelation exResult exScope2
      exForeignKey rfl rfl⟩

/-- Witness for C7 at a MySQL connection and a generated-UUID referenced
column without explicit length: the created column's length is `"36"`. -/
theorem C7_uuid_length_special_case_witness :
    (RelationJoinColumnBuilder.findRelationalColumn exUuidScope
        (RelationJoinColumnBuilder.computeJoinColumnName exConnectionMySQL []
          exUuidRelation uuidColumn) = none) ∧
    ((RelationJoinColumnBuilder.materializeColumn exConnectionMySQL []
        exUuidRelation exUuidScope uuidColumn).1.length
      = (if uuid36Condition exConnectionMySQL uuidColumn then "36"
         else uuidColumn.length)) ∧
    (RelationJoinColumnBuilder.materializeColumn exConnectionMySQL []
        exUuidRelation exUuidScope uuidColumn).1.length = "36" :=
  ⟨rfl,
    C7_uuid_length_special_case exConnectionMySQL [] exUuidRelation exUuidScope
      uuidColumn rfl,
    by decide⟩

/-- Witness for C8 at the non-owning one-to-one side, whose referenced
columns resolve to the empty list. -/
theorem C8_no_foreign_key_cases_witness :
    (RelationJoinColumnBuilder.collectReferencedColumns []
      exInverseOneToOne = .ok []) ∧
    (RelationJoinColumnBuilder.build exConnection [] exInverseOneToOne
      = .ok ({ foreignKey := none
               columns := (RelationJoinColumnBuilder.collectColumns exConnection
                 [] exInverseOneToOne []
                 (RelationJoinColumnBuilder.ScopeState.init exInverseOneToOne)).1
               uniqueConstraint := none },
             (RelationJoinColumnBuilder.collectColumns exConnection []
               exInverseOneToOne []
               (RelationJoinColumnBuilder.ScopeState.init exInverseOneToOne)).2) ∧
     (([] : List ColumnMetadata) = [] →
       (RelationJoinColumnBuilder.collectColumns exConnection []
         exInverseOneToOne []
         (RelationJoinColumnBuilder.ScopeState.init exInverseOneToOne)).1
         = [])) :=
  ⟨rfl,
    C8_no_foreign_key_cases exConnection [] exInverseOneToOne [] rfl
      (Or.inl rfl)⟩

/-- Witness for the amended C9: the first claimant's column is appended
once; the second claimant's clone leaves the scope unchanged. -/
theorem C9_registration_amended_witness :
    ((RelationJoinColumnBuilder.findRelationalColumn
        (RelationJoinColumnBuilder.ScopeState.init exRelationA)
        (RelationJoinColumnBuilder.computeJoinColumnName exConnection
          [sharedNameSpec] exRelationA idColumn) = none) ∧
     (RelationJoinColumnBuilder.materializeColumn exConnection [sharedNameSpec]
        exRelationA (RelationJoinColumnBuilder.ScopeState.init exRelationA)
        idColumn).2.ownColumns
       = (RelationJoinColumnBuilder.ScopeState.init exRelationA).ownColumns
           ++ [(RelationJoinColumnBuilder.materializeColumn exConnection
                 [sharedNameSpec] exRelationA
                 (RelationJoinColumnBuilder.ScopeState.init exRelationA)
                 idColumn).1]) ∧
    ((RelationJoinColumnBuilder.findRelationalColumn exScopeB
        (RelationJoinColumnBuilder.computeJoinColumnName exConnection
          [sharedNameSpec] exRelationB idColumn) = some exClaimedColumn) ∧
     exClaimedColumn.referencedColumn.isSome = true ∧
     (RelationJoinColumnBuilder.materializeColumn exConnection [sharedNameSpec]
        exRelationB exScopeB idColumn).2 = exScopeB) :=
  ⟨⟨rfl,
     (C9_registration_amended exConnection [sharedNameSpec] exRelationA
       (RelationJoinColumnBuilder.ScopeState.init exRelationA) idColumn).1 rfl⟩,
   ⟨rfl, rfl,
     (C9_registration_amended exConnection [sharedNameSpec] exRelationB
       exScopeB idColumn).2 exClaimedColumn rfl rfl⟩⟩

/-- Witness for C10 at a spec list mixing a fully specified spec with a
name-only spec. -/
theorem C10_mixed_specs_fail_witness :
    namedIdSpec ∈ [namedIdSpec, nameOnlySpec] ∧
    truthy namedIdSpec.referencedColumnName = true ∧
    nameOnlySpec ∈ [namedIdSpec, nameOnlySpec] ∧
    nameOnlySpec.referencedColumnName = none ∧
    (∃ msg,
      RelationJoinColumnBuilder.collectReferencedColumns
        [namedIdSpec, nameOnlySpec] exRelation = .error msg ∧
      RelationJoinColumnBuilder.build exConnection [namedIdSpec, nameOnlySpec]
        exRelation = .error msg) :=
  ⟨by simp, rfl, by simp, rfl,
    C10_mixed_specs_fail exConnection [namedIdSpec, nameOnlySpec] exRelation
      namedIdSpec nameOnlySpec (by simp) rfl (by simp) rfl⟩
